import Mathlib

/-!
Verification of the LOFI dungeon-crawler core (LWC repository).

Shallow embedding of the game-model classes: Position (Position.cpp),
Map (Map.cpp), GameState (GameState.cpp), WallSpriteSet
(WallSpriteSet.cpp), ArtManager (ArtManager.cpp), MapView (MapView.cpp)
and the MiniMap cell-coloring rule (MiniMap.cpp).

C++ ints are modelled as Lean Int (no overflow occurs at the claim-relevant
values); the C++ `%` operator (truncated remainder) is Int.tmod; the C++
`/` on ints (truncation toward zero) is Int.tdiv.  The per-cell face
tables walls_[row][col][face] and passibility_[row][col][face] are
modelled as total functions Int -> Int -> Int -> _ updated pointwise:
every C++ write lands in its slot and every read is total, which agrees
with the C++ program on all well-defined executions.  SDL_Surface
pointers are modelled as Option Nat (none = null handle).
-/

namespace LOFI

/-! ## Constants from Map.h -/

def PLAYER_FACING_NORTH : Int := 0
def PLAYER_FACING_SOUTH : Int := 2
def PLAYER_FACING_EAST : Int := 1
def PLAYER_FACING_WEST : Int := 3

def WALL_FACING_EAST : Int := 1
def WALL_FACING_WEST : Int := 3
def WALL_FACING_NORTH : Int := 4
def WALL_FACING_SOUTH : Int := 2

def WALL_TYPE_BRICK : Int := 1
def WALL_TYPE_STONE : Int := 2
def WALL_TYPE_WOOD : Int := 3
def WALL_TYPE_METAL : Int := 4

/-! ## Position (Position.h / Position.cpp) -/

/-- Value object of Position.h: integer column x_, row y_, facing_. -/
structure Position where
  x : Int
  y : Int
  facing : Int
deriving DecidableEq, Repr

/-- Position::GetLeftFacingOfThis - new Position(x_, y_, (facing_ + 3) % 4). -/
def Position.GetLeftFacingOfThis (p : Position) : Position :=
  Position.mk p.x p.y ((p.facing + 3).tmod 4)

/-- Position::GetRightFacingOfThis - new Position(x_, y_, (facing_ + 1) % 4). -/
def Position.GetRightFacingOfThis (p : Position) : Position :=
  Position.mk p.x p.y ((p.facing + 1).tmod 4)

/-- Position::GetPositionLeftOfThis - switch on facing_: case 0 x -= steps,
case 1 y -= steps, case 2 x += steps, case 3 y += steps, default no offset. -/
def Position.GetPositionLeftOfThis (p : Position) (steps : Int) : Position :=
  if p.facing = 0 then Position.mk (p.x - steps) p.y p.facing
  else if p.facing = 1 then Position.mk p.x (p.y - steps) p.facing
  else if p.facing = 2 then Position.mk (p.x + steps) p.y p.facing
  else if p.facing = 3 then Position.mk p.x (p.y + steps) p.facing
  else Position.mk p.x p.y p.facing

/-- Position::GetPositionRightOfThis - switch on facing_: case 0 x += steps,
case 1 y += steps, case 2 x -= steps, case 3 y -= steps, default no offset. -/
def Position.GetPositionRightOfThis (p : Position) (steps : Int) : Position :=
  if p.facing = 0 then Position.mk (p.x + steps) p.y p.facing
  else if p.facing = 1 then Position.mk p.x (p.y + steps) p.facing
  else if p.facing = 2 then Position.mk (p.x - steps) p.y p.facing
  else if p.facing = 3 then Position.mk p.x (p.y - steps) p.facing
  else Position.mk p.x p.y p.facing

/-- Position::GetPositionAheadOfThis - switch on facing_: case 0 y -= steps,
case 1 x += steps, case 2 y += steps, case 3 x -= steps, default no offset. -/
def Position.GetPositionAheadOfThis (p : Position) (steps : Int) : Position :=
  if p.facing = 0 then Position.mk p.x (p.y - steps) p.facing
  else if p.facing = 1 then Position.mk (p.x + steps) p.y p.facing
  else if p.facing = 2 then Position.mk p.x (p.y + steps) p.facing
  else if p.facing = 3 then Position.mk (p.x - steps) p.y p.facing
  else Position.mk p.x p.y p.facing

/-- Position::GetPositionBehindThis - switch on facing_: case 0 y += steps,
case 1 x -= steps, case 2 y -= steps, case 3 x += steps, default no offset. -/
def Position.GetPositionBehindThis (p : Position) (steps : Int) : Position :=
  if p.facing = 0 then Position.mk p.x (p.y + steps) p.facing
  else if p.facing = 1 then Position.mk (p.x - steps) p.y p.facing
  else if p.facing = 2 then Position.mk p.x (p.y - steps) p.facing
  else if p.facing = 3 then Position.mk (p.x + steps) p.y p.facing
  else Position.mk p.x p.y p.facing

/-- Position::InBounds - exclusive or inclusive rectangle containment test.
The C++ declaration defaults inclusive to true; call sites here pass it
explicitly. -/
def Position.InBounds (p : Position) (left top right bottom : Int)
    (inclusive : Bool) : Bool :=
  if !inclusive then
    decide (p.x > left ∧ p.y > top ∧ p.x < right ∧ p.y < bottom)
  else
    decide (p.x ≥ left ∧ p.y ≥ top ∧ p.x ≤ right ∧ p.y ≤ bottom)

/-! ## Claims C5 and C6: coordinate algebra -/

/-- Claim C5: for every position whose facing lies in the 4-valued facing
domain {0,1,2,3}, GetLeftFacingOfThis followed by GetRightFacingOfThis
restores the facing, applying GetLeftFacingOfThis four times restores the
facing, and both rotations leave (x, y) unchanged. -/
theorem facing_rotation_algebra (p : Position)
    (hf0 : 0 ≤ p.facing) (hf4 : p.facing < 4) :
    (p.GetLeftFacingOfThis.GetRightFacingOfThis).facing = p.facing ∧
    (p.GetLeftFacingOfThis.GetLeftFacingOfThis.GetLeftFacingOfThis.GetLeftFacingOfThis).facing
      = p.facing ∧
    p.GetLeftFacingOfThis.x = p.x ∧ p.GetLeftFacingOfThis.y = p.y ∧
    p.GetRightFacingOfThis.x = p.x ∧ p.GetRightFacingOfThis.y = p.y ∧
    (p.GetLeftFacingOfThis.GetRightFacingOfThis).x = p.x ∧
    (p.GetLeftFacingOfThis.GetRightFacingOfThis).y = p.y := by
  rcases p with ⟨x, y, f⟩
  dsimp only at hf0 hf4
  have hf : f = 0 ∨ f = 1 ∨ f = 2 ∨ f = 3 := by omega
  rcases hf with rfl | rfl | rfl | rfl <;>
    simp [Position.GetLeftFacingOfThis, Position.GetRightFacingOfThis] <;> decide

/-- Witness for claim C5 at the concrete position (5, 7, facing 2). -/
theorem facing_rotation_algebra_witness :
    ((Position.mk 5 7 2).GetLeftFacingOfThis.GetRightFacingOfThis).facing
      = (Position.mk 5 7 2).facing ∧
    ((Position.mk 5 7 2).GetLeftFacingOfThis.GetLeftFacingOfThis.GetLeftFacingOfThis.GetLeftFacingOfThis).facing
      = (Position.mk 5 7 2).facing ∧
    (Position.mk 5 7 2).GetLeftFacingOfThis.x = (Position.mk 5 7 2).x ∧
    (Position.mk 5 7 2).GetLeftFacingOfThis.y = (Position.mk 5 7 2).y ∧
    (Position.mk 5 7 2).GetRightFacingOfThis.x = (Position.mk 5 7 2).x ∧
    (Position.mk 5 7 2).GetRightFacingOfThis.y = (Position.mk 5 7 2).y ∧
    ((Position.mk 5 7 2).GetLeftFacingOfThis.GetRightFacingOfThis).x = (Position.mk 5 7 2).x ∧
    ((Position.mk 5 7 2).GetLeftFacingOfThis.GetRightFacingOfThis).y = (Position.mk 5 7 2).y :=
  facing_rotation_algebra (Position.mk 5 7 2) (by decide) (by decide)

/-- Claim C6: for every position and every integer step count,
GetPositionAheadOfThis n followed by GetPositionBehindThis n restores the
(x, y) coordinates, and both translations keep the facing unchanged; this
holds for every facing value, including values outside {0,1,2,3}, where
both hit the switch default and translate by zero. -/
theorem ahead_behind_inverse (p : Position) (n : Int) :
    ((p.GetPositionAheadOfThis n).GetPositionBehindThis n).x = p.x ∧
    ((p.GetPositionAheadOfThis n).GetPositionBehindThis n).y = p.y ∧
    (p.GetPositionAheadOfThis n).facing = p.facing ∧
    ((p.GetPositionAheadOfThis n).GetPositionBehindThis n).facing = p.facing := by
  rcases p with ⟨x, y, f⟩
  by_cases h0 : f = 0
  · subst h0
    simp [Position.GetPositionAheadOfThis, Position.GetPositionBehindThis]
  · by_cases h1 : f = 1
    · subst h1
      simp [Position.GetPositionAheadOfThis, Position.GetPositionBehindThis]
    · by_cases h2 : f = 2
      · subst h2
        simp [Position.GetPositionAheadOfThis, Position.GetPositionBehindThis]
      · by_cases h3 : f = 3
        · subst h3
          simp [Position.GetPositionAheadOfThis, Position.GetPositionBehindThis]
        · simp [Position.GetPositionAheadOfThis, Position.GetPositionBehindThis,
            h0, h1, h2, h3]

/-! ## Integer ranges for the C++ counting loops -/

/-- List of the Int values visited by a C++ loop of the form
for (i = lo; i < bound; i++). -/
def intRangeFrom (lo bound : Int) : List Int :=
  (List.range (bound - lo).toNat).map (fun n => lo + Int.ofNat n)

/-- List of the Int values visited by a C++ loop of the form
for (i = 0; i < bound; i++). -/
def intRange (bound : Int) : List Int :=
  intRangeFrom 0 bound

theorem mem_intRangeFrom {lo bound n : Int} :
    n ∈ intRangeFrom lo bound ↔ lo ≤ n ∧ n < bound := by
  constructor
  · intro h
    obtain ⟨k, hk, hkn⟩ := List.mem_map.mp h
    have hk2 := List.mem_range.mp hk
    rw [Int.ofNat_eq_coe] at hkn
    omega
  · intro h
    refine List.mem_map.mpr ⟨(n - lo).toNat, ?_, ?_⟩
    · exact List.mem_range.mpr (by omega)
    · rw [Int.ofNat_eq_coe]
      omega

theorem mem_intRange {bound n : Int} : n ∈ intRange bound ↔ 0 ≤ n ∧ n < bound := by
  simp [intRange, mem_intRangeFrom]

/-! ## Map (Map.h / Map.cpp) -/

/-- Pointwise update of a three-index table: models one C++ assignment
table[row][column][depth] = value on the function-modelled table. -/
def upd3 {α : Type} (table : Int → Int → Int → α) (row column depth : Int)
    (value : α) : Int → Int → Int → α :=
  fun r c d => if r = row ∧ c = column ∧ d = depth then value else table r c d

/-- State of Map.h: width_, height_, the walls_ and passibility_ tables
(functions standing for the nested arrays), and startingPoints_ as a list.
The visited_ member is declared in Map.h but never allocated, written or
read (IsVisited is a stub), so it is omitted. -/
structure MapState where
  width : Int
  height : Int
  walls : Int → Int → Int → Int
  passibility : Int → Int → Int → Bool
  startingPoints : List Position

/-- Map::Map() - width_ 0, height_ 0, null tables, null startingPoints_.
The null tables are modelled as constant functions; they are never read
before ClearMap reinstalls fresh tables. -/
def MapState.init : MapState :=
  { width := 0, height := 0,
    walls := fun _ _ _ => 0,
    passibility := fun _ _ _ => false,
    startingPoints := [] }

/-- Map::GetWallForCoordinate - walls_[y_][x_][facing_] when (x_, y_) is
inside [0,width) x [0,height), else 0. -/
def MapState.GetWallForCoordinate (m : MapState) (position : Position) : Int :=
  if (0 ≤ position.x ∧ position.x < m.width) ∧
     (0 ≤ position.y ∧ position.y < m.height) then
    m.walls position.y position.x position.facing
  else 0

/-- Map::CanPassWallForCoordinate - passibility_[y_][x_][facing_] when
(x_, y_) is inside [0,width) x [0,height), else false. -/
def MapState.CanPassWallForCoordinate (m : MapState) (position : Position) : Bool :=
  if (0 ≤ position.x ∧ position.x < m.width) ∧
     (0 ≤ position.y ∧ position.y < m.height) then
    m.passibility position.y position.x position.facing
  else false

/-- Map::GetStartingPoint - startingPoints_[which] when startingPoints_ is
non-null and which < 1, else a fresh Position(0, 0, 0).  For a negative
which the C++ indexes before the array; the claims only exercise which = 0
and which >= 1. -/
def MapState.GetStartingPoint (m : MapState) (which : Int) : Position :=
  if m.startingPoints ≠ [] ∧ which < 1 then
    m.startingPoints.getD which.toNat (Position.mk 0 0 0)
  else Position.mk 0 0 0

/-- Map::IsVisited - stub that always returns false. -/
def MapState.IsVisited (_ : MapState) (_column : Int) (_row : Int) : Bool :=
  false

/-- Body of the per-cell part of Map::ClearMap STEP 6: for depth 0..3 set
walls 0 and passibility true, then overwrite the four face slots with the
border conditions, in source order (slot 3 from the column-0 test, slot 0
from the row-0 test, slot 1 from the last-column test, slot 2 from the
last-row test). -/
def clearCellFaces (m : MapState) (row column : Int) : MapState :=
  let m0 : MapState :=
    { m with
      walls :=
        upd3 (upd3 (upd3 (upd3 m.walls row column 0 0) row column 1 0)
          row column 2 0) row column 3 0,
      passibility :=
        upd3 (upd3 (upd3 (upd3 m.passibility row column 0 true) row column 1 true)
          row column 2 true) row column 3 true }
  { m0 with
    passibility :=
      upd3 (upd3 (upd3 (upd3 m0.passibility
        row column 3 (decide (column ≠ 0)))
        row column 0 (decide (row ≠ 0)))
        row column 1 (decide (column ≠ m.width - 1)))
        row column 2 (decide (row ≠ m.height - 1)) }

/-- Map::ClearMap - frees and reallocates the walls_ and passibility_
tables (fresh allocation modelled as all-zero / all-false; the C++ leaves
the fresh cells indeterminate, and STEP 6 initializes every slot the
claims read), frees startingPoints_, then runs the STEP 6 initialization
loops over every in-range cell. -/
def MapState.ClearMap (m : MapState) : MapState :=
  let allocated : MapState :=
    { m with
      walls := fun _ _ _ => 0,
      passibility := fun _ _ _ => false,
      startingPoints := [] }
  (intRange m.height).foldl
    (fun accRow row =>
      (intRange m.width).foldl
        (fun acc column => clearCellFaces acc row column) accRow)
    allocated

/-- Map::MakeNormalWall - writes wallID / impassable at the given
position's face, then, when the position one step ahead passes the
inclusive InBounds(0, 0, width_, height_) test, writes the same wall on
the neighboring cell's opposite face (facing_ + 2) % 4. -/
def MapState.MakeNormalWall (m : MapState) (position : Position) (wallID : Int) :
    MapState :=
  let m1 : MapState :=
    { m with
      walls := upd3 m.walls position.y position.x position.facing wallID,
      passibility := upd3 m.passibility position.y position.x position.facing false }
  let positionAhead := position.GetPositionAheadOfThis 1
  if positionAhead.InBounds 0 0 m1.width m1.height true then
    let newFacing := (position.facing + 2).tmod 4
    { m1 with
      walls := upd3 m1.walls positionAhead.y positionAhead.x newFacing wallID,
      passibility := upd3 m1.passibility positionAhead.y positionAhead.x newFacing false }
  else m1

/-- Map::RemoveWall - mirror of MakeNormalWall restoring wall id 0 and
passability true on both sides. -/
def MapState.RemoveWall (m : MapState) (position : Position) : MapState :=
  let m1 : MapState :=
    { m with
      walls := upd3 m.walls position.y position.x position.facing 0,
      passibility := upd3 m.passibility position.y position.x position.facing true }
  let positionAhead := position.GetPositionAheadOfThis 1
  if positionAhead.InBounds 0 0 m1.width m1.height true then
    let newFacing := (position.facing + 2).tmod 4
    { m1 with
      walls := upd3 m1.walls positionAhead.y positionAhead.x newFacing 0,
      passibility := upd3 m1.passibility positionAhead.y positionAhead.x newFacing true }
  else m1

/-- First authoring loop of Map::MakeFirstMockup: for each row, stone
walls at Position(0, row, WALL_FACING_EAST) and
Position(width_ - 1, row, WALL_FACING_WEST). -/
def mockupBorderEastWest (m : MapState) : MapState :=
  (intRange m.height).foldl
    (fun acc row =>
      (acc.MakeNormalWall (Position.mk 0 row WALL_FACING_EAST) WALL_TYPE_STONE).MakeNormalWall
        (Position.mk (acc.width - 1) row WALL_FACING_WEST) WALL_TYPE_STONE)
    m

/-- Second authoring loop of Map::MakeFirstMockup: for each column, stone
walls at Position(column, 0, WALL_FACING_SOUTH) and
Position(column, height_ - 1, WALL_FACING_NORTH). -/
def mockupBorderNorthSouth (m : MapState) : MapState :=
  (intRange m.width).foldl
    (fun acc column =>
      (acc.MakeNormalWall (Position.mk column 0 WALL_FACING_SOUTH) WALL_TYPE_STONE).MakeNormalWall
        (Position.mk column (acc.height - 1) WALL_FACING_NORTH) WALL_TYPE_STONE)
    m

/-- Third authoring loop of Map::MakeFirstMockup (corridor, columns 2 to
width_ - 3): stone walls at Position(column, 1, WALL_FACING_SOUTH) and
Position(column, height_ - 2, WALL_FACING_SOUTH). -/
def mockupCorridorColumns (m : MapState) : MapState :=
  (intRangeFrom 2 (m.width - 2)).foldl
    (fun acc column =>
      (acc.MakeNormalWall (Position.mk column 1 WALL_FACING_SOUTH) WALL_TYPE_STONE).MakeNormalWall
        (Position.mk column (acc.height - 2) WALL_FACING_SOUTH) WALL_TYPE_STONE)
    m

/-- Fourth authoring loop of Map::MakeFirstMockup (corridor, rows 2 to
height_ - 2): stone walls at Position(1, row, WALL_FACING_EAST) and
Position(width_ - 2, row, WALL_FACING_WEST). -/
def mockupCorridorRows (m : MapState) : MapState :=
  (intRangeFrom 2 (m.height - 1)).foldl
    (fun acc row =>
      (acc.MakeNormalWall (Position.mk 1 row WALL_FACING_EAST) WALL_TYPE_STONE).MakeNormalWall
        (Position.mk (acc.width - 2) row WALL_FACING_WEST) WALL_TYPE_STONE)
    m

/-- Map::MakeFirstMockup - width_ = height_ = 10, ClearMap, one starting
point Position(1, 1, PLAYER_FACING_EAST), border walls around the map,
the west-edge corridor walls, and one removed wall at
Position(2, height_ / 2, WALL_FACING_WEST).  The loop groups are split
into the named helper functions above; the loop bounds read the constant
width_ = height_ = 10. -/
def MapState.MakeFirstMockup (m : MapState) : MapState :=
  let m0 : MapState := { m with width := 10, height := 10 }
  let m1 := m0.ClearMap
  let m2 : MapState :=
    { m1 with startingPoints := [Position.mk 1 1 PLAYER_FACING_EAST] }
  let m6 := mockupCorridorRows (mockupCorridorColumns
    (mockupBorderNorthSouth (mockupBorderEastWest m2)))
  m6.RemoveWall (Position.mk 2 (m6.height.tdiv 2) WALL_FACING_WEST)

/-- Map::MakeMockup - delegates to MakeFirstMockup. -/
def MapState.MakeMockup (m : MapState) : MapState :=
  m.MakeFirstMockup

/-! ## GameState (GameState.h / GameState.cpp) -/

/-- State of GameState.h: the owned current Map and player Position. -/
structure GameState where
  currentMap : MapState
  playerPosition : Position

/-- GameState::StartNewGame - builds a fresh mockup Map and copies the
starting point 0 into the player position. -/
def GameState.StartNewGame (_gs : GameState) : GameState :=
  let newMap := MapState.init.MakeMockup
  { currentMap := newMap,
    playerPosition := newMap.GetStartingPoint 0 }

/-- GameState::MovePlayerForward - when CanPassWallForCoordinate holds at
the player position, commits GetPositionAheadOfThis(1) and returns true;
otherwise returns false with no state change. -/
def GameState.MovePlayerForward (gs : GameState) : Bool × GameState :=
  if gs.currentMap.CanPassWallForCoordinate gs.playerPosition then
    (true, { gs with playerPosition := gs.playerPosition.GetPositionAheadOfThis 1 })
  else
    (false, gs)

/-- GameState::TurnPlayerLeft - unconditionally rotates the facing left. -/
def GameState.TurnPlayerLeft (gs : GameState) : GameState :=
  { gs with playerPosition := gs.playerPosition.GetLeftFacingOfThis }

/-- GameState::TurnPlayerRight - unconditionally rotates the facing right. -/
def GameState.TurnPlayerRight (gs : GameState) : GameState :=
  { gs with playerPosition := gs.playerPosition.GetRightFacingOfThis }

/-! ## Claim C1: movement gating -/

/-- Modelled from the spec: the unit grid step along the axis of a facing
in {North = 0, East = 1, South = 2, West = 3}, as (dx, dy). -/
def specFacingStep (facing : Int) : Int × Int :=
  if facing = 0 then (0, -1)
  else if facing = 1 then (1, 0)
  else if facing = 2 then (0, 1)
  else if facing = 3 then (-1, 0)
  else (0, 0)

/-- Claim C1: MovePlayerForward returns true, keeps the map and the facing
unchanged, and advances (x, y) by exactly one step along the current
facing's axis when CanPassWallForCoordinate holds at the player position;
otherwise it returns false and leaves the whole game state unchanged. -/
theorem movePlayerForward_gating (gs : GameState) :
    (gs.currentMap.CanPassWallForCoordinate gs.playerPosition = true →
      (gs.MovePlayerForward).1 = true ∧
      (gs.MovePlayerForward).2.currentMap = gs.currentMap ∧
      (gs.MovePlayerForward).2.playerPosition.facing = gs.playerPosition.facing ∧
      (0 ≤ gs.playerPosition.facing → gs.playerPosition.facing < 4 →
        ((gs.MovePlayerForward).2.playerPosition.x - gs.playerPosition.x,
         (gs.MovePlayerForward).2.playerPosition.y - gs.playerPosition.y) =
          specFacingStep gs.playerPosition.facing)) ∧
    (gs.currentMap.CanPassWallForCoordinate gs.playerPosition = false →
      gs.MovePlayerForward = (false, gs)) := by
  rcases gs with ⟨m, p⟩
  constructor
  · intro hcan
    have hmove : GameState.MovePlayerForward ⟨m, p⟩ =
        (true, ⟨m, p.GetPositionAheadOfThis 1⟩) := by
      simp [GameState.MovePlayerForward, hcan]
    rw [hmove]
    refine ⟨rfl, rfl, ?_, ?_⟩
    · rcases p with ⟨x, y, f⟩
      by_cases h0 : f = 0
      · subst h0; simp [Position.GetPositionAheadOfThis]
      · by_cases h1 : f = 1
        · subst h1; simp [Position.GetPositionAheadOfThis]
        · by_cases h2 : f = 2
          · subst h2; simp [Position.GetPositionAheadOfThis]
          · by_cases h3 : f = 3
            · subst h3; simp [Position.GetPositionAheadOfThis]
            · simp [Position.GetPositionAheadOfThis, h0, h1, h2, h3]
    · intro hf0 hf4
      rcases p with ⟨x, y, f⟩
      dsimp only at hf0 hf4
      have hf : f = 0 ∨ f = 1 ∨ f = 2 ∨ f = 3 := by omega
      rcases hf with rfl | rfl | rfl | rfl <;>
        simp [Position.GetPositionAheadOfThis, specFacingStep]
  · intro hcan
    simp [GameState.MovePlayerForward, hcan]

/-- Witness for claim C1 on a concrete 3x3 all-passable map with the
player at (1, 1) facing East: the move succeeds and shifts (x, y) by the
unit East step (1, 0). -/
theorem movePlayerForward_gating_witness :
    (GameState.MovePlayerForward
      ⟨⟨3, 3, fun _ _ _ => 0, fun _ _ _ => true, []⟩, ⟨1, 1, 1⟩⟩).1 = true ∧
    ((GameState.MovePlayerForward
      ⟨⟨3, 3, fun _ _ _ => 0, fun _ _ _ => true, []⟩, ⟨1, 1, 1⟩⟩).2.playerPosition.x -
        (1 : Int),
     (GameState.MovePlayerForward
      ⟨⟨3, 3, fun _ _ _ => 0, fun _ _ _ => true, []⟩, ⟨1, 1, 1⟩⟩).2.playerPosition.y -
        (1 : Int)) = specFacingStep 1 := by
  have h := movePlayerForward_gating
    ⟨⟨3, 3, fun _ _ _ => 0, fun _ _ _ => true, []⟩, ⟨1, 1, 1⟩⟩
  have hcan : (MapState.CanPassWallForCoordinate
      ⟨3, 3, fun _ _ _ => 0, fun _ _ _ => true, []⟩ ⟨1, 1, 1⟩) = true := by
    decide
  have h1 := h.1 hcan
  exact ⟨h1.1, h1.2.2.2 (by decide) (by decide)⟩

/-! ## Claim C2: bilateral wall writes -/

theorem upd3_apply {α : Type} (table : Int → Int → Int → α)
    (row column depth : Int) (value : α) (r c d : Int) :
    upd3 table row column depth value r c d =
      if r = row ∧ c = column ∧ d = depth then value else table r c d := rfl

/-- Claim C2: for an in-bounds position with a facing in {0,1,2,3} and a
nonzero wall id, when the cell one step ahead is also strictly in bounds,
MakeNormalWall makes GetWallForCoordinate report the id and
CanPassWallForCoordinate report false both at the position's own face and
at the neighboring cell's opposite face (facing + 2) mod 4. -/
theorem makeNormalWall_bilateral
    (m : MapState) (p : Position) (wallID : Int)
    (_hwid : wallID ≠ 0)
    (hpx : 0 ≤ p.x) (hpx2 : p.x < m.width)
    (hpy : 0 ≤ p.y) (hpy2 : p.y < m.height)
    (hf0 : 0 ≤ p.facing) (hf4 : p.facing < 4)
    (hqx : 0 ≤ (p.GetPositionAheadOfThis 1).x)
    (hqx2 : (p.GetPositionAheadOfThis 1).x < m.width)
    (hqy : 0 ≤ (p.GetPositionAheadOfThis 1).y)
    (hqy2 : (p.GetPositionAheadOfThis 1).y < m.height) :
    (m.MakeNormalWall p wallID).GetWallForCoordinate p = wallID ∧
    (m.MakeNormalWall p wallID).CanPassWallForCoordinate p = false ∧
    (m.MakeNormalWall p wallID).GetWallForCoordinate
      (Position.mk (p.GetPositionAheadOfThis 1).x (p.GetPositionAheadOfThis 1).y
        ((p.facing + 2).tmod 4)) = wallID ∧
    (m.MakeNormalWall p wallID).CanPassWallForCoordinate
      (Position.mk (p.GetPositionAheadOfThis 1).x (p.GetPositionAheadOfThis 1).y
        ((p.facing + 2).tmod 4)) = false := by
  rcases m with ⟨w, ht, walls, pass, sps⟩
  rcases p with ⟨x, y, f⟩
  dsimp only at hpx hpx2 hpy hpy2 hf0 hf4 hqx hqx2 hqy hqy2 ⊢
  have hf : f = 0 ∨ f = 1 ∨ f = 2 ∨ f = 3 := by omega
  rcases hf with rfl | rfl | rfl | rfl <;>
    simp [Position.GetPositionAheadOfThis, MapState.MakeNormalWall,
      MapState.GetWallForCoordinate, MapState.CanPassWallForCoordinate,
      Position.InBounds, upd3_apply,
      show Int.tmod (0 + 2) 4 = 2 from by decide,
      show Int.tmod (1 + 2) 4 = 3 from by decide,
      show Int.tmod (2 + 2) 4 = 0 from by decide,
      show Int.tmod (3 + 2) 4 = 1 from by decide] at hqx hqx2 hqy hqy2 ⊢ <;>
    split_ifs <;>
    simp_all [upd3_apply,
      show Int.tmod 2 4 = 2 from by decide,
      show Int.tmod 3 4 = 3 from by decide,
      show Int.tmod 4 4 = 0 from by decide,
      show Int.tmod 5 4 = 1 from by decide] <;>
    omega

/-- Witness for claim C2 on a concrete 3x3 all-passable map: a stone wall
placed at (1, 1) facing East is reported on the east face of (1, 1) and on
the west face (facing 3) of the neighbor (2, 1), blocking both. -/
theorem makeNormalWall_bilateral_witness :
    ((MapState.mk 3 3 (fun _ _ _ => 0) (fun _ _ _ => true) []).MakeNormalWall
      ⟨1, 1, 1⟩ 2).GetWallForCoordinate ⟨1, 1, 1⟩ = 2 ∧
    ((MapState.mk 3 3 (fun _ _ _ => 0) (fun _ _ _ => true) []).MakeNormalWall
      ⟨1, 1, 1⟩ 2).CanPassWallForCoordinate ⟨1, 1, 1⟩ = false ∧
    ((MapState.mk 3 3 (fun _ _ _ => 0) (fun _ _ _ => true) []).MakeNormalWall
      ⟨1, 1, 1⟩ 2).GetWallForCoordinate
        (Position.mk ((⟨1, 1, 1⟩ : Position).GetPositionAheadOfThis 1).x
          ((⟨1, 1, 1⟩ : Position).GetPositionAheadOfThis 1).y
          (((1 : Int) + 2).tmod 4)) = 2 ∧
    ((MapState.mk 3 3 (fun _ _ _ => 0) (fun _ _ _ => true) []).MakeNormalWall
      ⟨1, 1, 1⟩ 2).CanPassWallForCoordinate
        (Position.mk ((⟨1, 1, 1⟩ : Position).GetPositionAheadOfThis 1).x
          ((⟨1, 1, 1⟩ : Position).GetPositionAheadOfThis 1).y
          (((1 : Int) + 2).tmod 4)) = false :=
  makeNormalWall_bilateral
    (MapState.mk 3 3 (fun _ _ _ => 0) (fun _ _ _ => true) []) ⟨1, 1, 1⟩ 2
    (by decide) (by decide) (by decide) (by decide) (by decide)
    (by decide) (by decide) (by decide) (by decide) (by decide) (by decide)

/-! ## Claim C3: ClearMap border invariant -/

/-- Net passability that the ClearMap STEP 6 body leaves on face depth of
cell (row r, column c) of a w x h map: the four border overrides win over
the initial all-true writes. -/
def cellPassValue (w h r c d : Int) : Bool :=
  if d = 2 then decide (r ≠ h - 1)
  else if d = 1 then decide (c ≠ w - 1)
  else if d = 0 then decide (r ≠ 0)
  else decide (c ≠ 0)

theorem clearCellFaces_width (m : MapState) (row column : Int) :
    (clearCellFaces m row column).width = m.width := rfl

theorem clearCellFaces_height (m : MapState) (row column : Int) :
    (clearCellFaces m row column).height = m.height := rfl

theorem clearCellFaces_startingPoints (m : MapState) (row column : Int) :
    (clearCellFaces m row column).startingPoints = m.startingPoints := rfl

theorem clearCellFaces_passibility (m : MapState) (row column r c d : Int) :
    (clearCellFaces m row column).passibility r c d =
      if r = row ∧ c = column ∧ (d = 0 ∨ d = 1 ∨ d = 2 ∨ d = 3) then
        cellPassValue m.width m.height r c d
      else m.passibility r c d := by
  simp only [clearCellFaces, upd3_apply, cellPassValue]
  split_ifs <;> simp_all

theorem clearCellFaces_walls (m : MapState) (row column r c d : Int) :
    (clearCellFaces m row column).walls r c d =
      if r = row ∧ c = column ∧ (d = 0 ∨ d = 1 ∨ d = 2 ∨ d = 3) then 0
      else m.walls r c d := by
  simp only [clearCellFaces, upd3_apply]
  split_ifs <;> simp_all

/-- Generic preservation of a predicate by a left fold. -/
theorem foldl_preserves {α β : Type} (P : α → Prop)
    (f : α → β → α) (hf : ∀ x b, P x → P (f x b)) :
    ∀ (l : List β) (m : α), P m → P (l.foldl f m) := by
  intro l
  induction l with
  | nil => intro m hm; exact hm
  | cons a t ih => intro m hm; exact ih _ (hf _ _ hm)

theorem foldCols_width (l : List Int) (row : Int) (m : MapState) :
    (l.foldl (fun acc column => clearCellFaces acc row column) m).width = m.width :=
  foldl_preserves (fun x : MapState => x.width = m.width) _
    (fun x b hx => (clearCellFaces_width x row b).trans hx) l m rfl

theorem foldCols_height (l : List Int) (row : Int) (m : MapState) :
    (l.foldl (fun acc column => clearCellFaces acc row column) m).height = m.height :=
  foldl_preserves (fun x : MapState => x.height = m.height) _
    (fun x b hx => (clearCellFaces_height x row b).trans hx) l m rfl

theorem foldCols_passibility (l : List Int) (row : Int) (m : MapState) (r c d : Int) :
    (l.foldl (fun acc column => clearCellFaces acc row column) m).passibility r c d =
      if r = row ∧ c ∈ l ∧ (d = 0 ∨ d = 1 ∨ d = 2 ∨ d = 3) then
        cellPassValue m.width m.height r c d
      else m.passibility r c d := by
  induction l generalizing m with
  | nil => simp
  | cons a t ih =>
    rw [List.foldl_cons, ih]
    rw [clearCellFaces_width, clearCellFaces_height, clearCellFaces_passibility]
    by_cases hr : r = row
    · subst hr
      by_cases hd : d = 0 ∨ d = 1 ∨ d = 2 ∨ d = 3
      · by_cases hct : c ∈ t
        · simp [hct, hd, List.mem_cons]
        · by_cases hca : c = a
          · subst hca
            simp [hct, hd, List.mem_cons]
          · simp [hct, hca, hd, List.mem_cons]
      · simp [hd]
    · simp [hr]

theorem foldRows_passibility (rows cols : List Int) (m : MapState) (r c d : Int) :
    (rows.foldl
      (fun accRow row =>
        cols.foldl (fun acc column => clearCellFaces acc row column) accRow)
      m).passibility r c d =
      if r ∈ rows ∧ c ∈ cols ∧ (d = 0 ∨ d = 1 ∨ d = 2 ∨ d = 3) then
        cellPassValue m.width m.height r c d
      else m.passibility r c d := by
  induction rows generalizing m with
  | nil => simp
  | cons a t ih =>
    rw [List.foldl_cons, ih]
    rw [foldCols_width, foldCols_height, foldCols_passibility]
    by_cases hd : d = 0 ∨ d = 1 ∨ d = 2 ∨ d = 3
    · by_cases hrt : r ∈ t
      · by_cases hc : c ∈ cols <;> simp [hrt, hd, hc, List.mem_cons]
      · by_cases hra : r = a
        · subst hra
          simp [hrt, hd, List.mem_cons]
        · simp [hrt, hra, hd, List.mem_cons]
    · simp [hd]

theorem clearMap_width (m : MapState) : (m.ClearMap).width = m.width := by
  unfold MapState.ClearMap
  exact foldl_preserves (fun x : MapState => x.width = m.width) _
    (fun x b hx => (foldCols_width _ _ _).trans hx) _ _ rfl

theorem clearMap_height (m : MapState) : (m.ClearMap).height = m.height := by
  unfold MapState.ClearMap
  exact foldl_preserves (fun x : MapState => x.height = m.height) _
    (fun x b hx => (foldCols_height _ _ _).trans hx) _ _ rfl

theorem clearMap_startingPoints (m : MapState) :
    (m.ClearMap).startingPoints = [] := by
  unfold MapState.ClearMap
  exact foldl_preserves (fun x : MapState => x.startingPoints = []) _
    (fun x b hx =>
      foldl_preserves (fun y : MapState => y.startingPoints = []) _
        (fun y c hy => (clearCellFaces_startingPoints y b c).trans hy) _ x hx)
    _ _ rfl

theorem clearMap_walls (m : MapState) (r c d : Int) :
    (m.ClearMap).walls r c d = 0 := by
  unfold MapState.ClearMap
  refine foldl_preserves (fun x : MapState => ∀ r2 c2 d2, x.walls r2 c2 d2 = 0) _
    (fun x b hx =>
      foldl_preserves (fun y : MapState => ∀ r2 c2 d2, y.walls r2 c2 d2 = 0) _
        (fun y cc hy r2 c2 d2 => by
          rw [clearCellFaces_walls]
          split_ifs
          · rfl
          · exact hy r2 c2 d2) _ x hx)
    _ _ (fun _ _ _ => rfl) r c d

theorem clearMap_passibility (m : MapState) (r c d : Int)
    (hr0 : 0 ≤ r) (hrh : r < m.height) (hc0 : 0 ≤ c) (hcw : c < m.width)
    (hd : d = 0 ∨ d = 1 ∨ d = 2 ∨ d = 3) :
    (m.ClearMap).passibility r c d = cellPassValue m.width m.height r c d := by
  unfold MapState.ClearMap
  rw [foldRows_passibility]
  simp [mem_intRange, hr0, hrh, hc0, hcw, hd]

/-- Modelled from the spec: a face is an outward-facing border face of a
w x h grid when it is face 3 of column 0, face 0 of row 0, face 1 of the
last column, or face 2 of the last row. -/
def specBorderFace (w h column row depth : Int) : Prop :=
  (depth = 3 ∧ column = 0) ∨ (depth = 0 ∧ row = 0) ∨
  (depth = 1 ∧ column = w - 1) ∨ (depth = 2 ∧ row = h - 1)

/-- Claim C3: on a freshly reset width x height map, every wall id reads 0
and CanPassWallForCoordinate is false exactly on the outward-facing border
faces (face 3 of column 0, face 0 of row 0, face 1 of the last column,
face 2 of the last row) and true on every other face of every in-bounds
cell. -/
theorem clearMap_border_invariant (m : MapState) (column row depth : Int)
    (hc0 : 0 ≤ column) (hcw : column < m.width)
    (hr0 : 0 ≤ row) (hrh : row < m.height)
    (hd0 : 0 ≤ depth) (hd4 : depth < 4) :
    ((m.ClearMap).CanPassWallForCoordinate (Position.mk column row depth) = true ↔
      ¬ specBorderFace m.width m.height column row depth) ∧
    (m.ClearMap).GetWallForCoordinate (Position.mk column row depth) = 0 := by
  have hd : depth = 0 ∨ depth = 1 ∨ depth = 2 ∨ depth = 3 := by omega
  have hguard : (0 ≤ column ∧ column < (m.ClearMap).width) ∧
      (0 ≤ row ∧ row < (m.ClearMap).height) := by
    rw [clearMap_width, clearMap_height]
    exact ⟨⟨hc0, hcw⟩, ⟨hr0, hrh⟩⟩
  constructor
  · rw [MapState.CanPassWallForCoordinate, if_pos hguard]
    dsimp only
    rw [clearMap_passibility m row column depth hr0 hrh hc0 hcw hd]
    rcases hd with rfl | rfl | rfl | rfl <;>
      simp [cellPassValue, specBorderFace]
  · rw [MapState.GetWallForCoordinate, if_pos hguard]
    exact clearMap_walls m row column depth

/-- Witness for claim C3 on a concrete 2x2 map: after ClearMap, face 0 of
cell (0, 0) is a border face (row 0), hence impassable, and carries wall
id 0. -/
theorem clearMap_border_invariant_witness :
    (((MapState.mk 2 2 (fun _ _ _ => 7) (fun _ _ _ => true) []).ClearMap).CanPassWallForCoordinate
        (Position.mk 0 0 0) = true ↔
      ¬ specBorderFace 2 2 0 0 0) ∧
    ((MapState.mk 2 2 (fun _ _ _ => 7) (fun _ _ _ => true) []).ClearMap).GetWallForCoordinate
        (Position.mk 0 0 0) = 0 :=
  clearMap_border_invariant (MapState.mk 2 2 (fun _ _ _ => 7) (fun _ _ _ => true) [])
    0 0 0 (by decide) (by decide) (by decide) (by decide) (by decide) (by decide)

/-! ## Claim C9: starting point round-trip -/

theorem makeNormalWall_startingPoints (m : MapState) (p : Position) (wallID : Int) :
    (m.MakeNormalWall p wallID).startingPoints = m.startingPoints := by
  unfold MapState.MakeNormalWall
  dsimp only
  split <;> rfl

theorem removeWall_startingPoints (m : MapState) (p : Position) :
    (m.RemoveWall p).startingPoints = m.startingPoints := by
  unfold MapState.RemoveWall
  dsimp only
  split <;> rfl

theorem mockupBorderEastWest_startingPoints (m : MapState) :
    (mockupBorderEastWest m).startingPoints = m.startingPoints :=
  foldl_preserves (fun x : MapState => x.startingPoints = m.startingPoints) _
    (fun x b hx => by
      dsimp only
      rw [makeNormalWall_startingPoints, makeNormalWall_startingPoints]; exact hx)
    _ _ rfl

theorem mockupBorderNorthSouth_startingPoints (m : MapState) :
    (mockupBorderNorthSouth m).startingPoints = m.startingPoints :=
  foldl_preserves (fun x : MapState => x.startingPoints = m.startingPoints) _
    (fun x b hx => by
      dsimp only
      rw [makeNormalWall_startingPoints, makeNormalWall_startingPoints]; exact hx)
    _ _ rfl

theorem mockupCorridorColumns_startingPoints (m : MapState) :
    (mockupCorridorColumns m).startingPoints = m.startingPoints :=
  foldl_preserves (fun x : MapState => x.startingPoints = m.startingPoints) _
    (fun x b hx => by
      dsimp only
      rw [makeNormalWall_startingPoints, makeNormalWall_startingPoints]; exact hx)
    _ _ rfl

theorem mockupCorridorRows_startingPoints (m : MapState) :
    (mockupCorridorRows m).startingPoints = m.startingPoints :=
  foldl_preserves (fun x : MapState => x.startingPoints = m.startingPoints) _
    (fun x b hx => by
      dsimp only
      rw [makeNormalWall_startingPoints, makeNormalWall_startingPoints]; exact hx)
    _ _ rfl

theorem makeFirstMockup_startingPoints (m : MapState) :
    (m.MakeFirstMockup).startingPoints = [Position.mk 1 1 PLAYER_FACING_EAST] := by
  simp only [MapState.MakeFirstMockup]
  rw [removeWall_startingPoints, mockupCorridorRows_startingPoints,
    mockupCorridorColumns_startingPoints, mockupBorderNorthSouth_startingPoints,
    mockupBorderEastWest_startingPoints]

/-- Claim C9: immediately after StartNewGame, GetStartingPoint 0 on the
current map equals the player's position in x, y and facing, which for the
authored mockup is column 1, row 1, facing East; for every index greater
than or equal to 1 the result is the fallback fresh origin
Position(0, 0, North). -/
theorem startNewGame_startingPoint_roundtrip (gs : GameState) :
    (gs.StartNewGame).currentMap.GetStartingPoint 0 =
      (gs.StartNewGame).playerPosition ∧
    (gs.StartNewGame).playerPosition = Position.mk 1 1 PLAYER_FACING_EAST ∧
    (∀ which : Int, 1 ≤ which →
      (gs.StartNewGame).currentMap.GetStartingPoint which = Position.mk 0 0 0) := by
  have hsp : ((gs.StartNewGame).currentMap).startingPoints =
      [Position.mk 1 1 PLAYER_FACING_EAST] := by
    simp only [GameState.StartNewGame, MapState.MakeMockup]
    exact makeFirstMockup_startingPoints _
  have hget0 : ((gs.StartNewGame).currentMap).GetStartingPoint 0 =
      Position.mk 1 1 PLAYER_FACING_EAST := by
    rw [MapState.GetStartingPoint, hsp]
    norm_num
  have hplayer : (gs.StartNewGame).playerPosition =
      Position.mk 1 1 PLAYER_FACING_EAST := by
    simp only [GameState.StartNewGame, MapState.MakeMockup]
    rw [MapState.GetStartingPoint, makeFirstMockup_startingPoints]
    norm_num
  refine ⟨hget0.trans hplayer.symm, hplayer, ?_⟩
  intro which hwhich
  rw [MapState.GetStartingPoint, hsp]
  have : ¬ ((1 : Int) ≤ 0) := by norm_num
  simp only [ne_eq]
  rw [if_neg]
  intro hcontra
  omega

/-- Witness for claim C9 from a concrete initial game state: starting
point 1 (an index greater than 0) falls back to the origin position. -/
theorem startNewGame_startingPoint_roundtrip_witness :
    ((GameState.mk MapState.init (Position.mk 0 0 0)).StartNewGame).currentMap.GetStartingPoint 1
      = Position.mk 0 0 0 :=
  (startNewGame_startingPoint_roundtrip
    (GameState.mk MapState.init (Position.mk 0 0 0))).2.2 1 (by decide)

/-! ## Claim C10: unchecked facing index in the face tables -/

theorem makeNormalWall_width (m : MapState) (p : Position) (wallID : Int) :
    (m.MakeNormalWall p wallID).width = m.width := by
  unfold MapState.MakeNormalWall
  dsimp only
  split <;> rfl

theorem makeNormalWall_height (m : MapState) (p : Position) (wallID : Int) :
    (m.MakeNormalWall p wallID).height = m.height := by
  unfold MapState.MakeNormalWall
  dsimp only
  split <;> rfl

/-- Guarded-indexing variant of Map::MakeNormalWall: the C++ writes
walls_[y][x][facing] into a 4-element innermost array without checking
facing, so this variant errors (returns none) exactly when the facing
index of the primary write is outside [0, 4).  The bilateral write's index
(facing + 2) % 4 is then automatically in range. -/
def MapState.MakeNormalWallChecked (m : MapState) (position : Position)
    (wallID : Int) : Option MapState :=
  if 0 ≤ position.facing ∧ position.facing < 4 then
    some (m.MakeNormalWall position wallID)
  else none

/-- Guarded-indexing variant of Map::RemoveWall, with the same facing
bound as MakeNormalWallChecked. -/
def MapState.RemoveWallChecked (m : MapState) (position : Position) :
    Option MapState :=
  if 0 ≤ position.facing ∧ position.facing < 4 then some (m.RemoveWall position)
  else none

/-- Guarded-indexing image of the first Map::MakeFirstMockup loop. -/
def mockupBorderEastWestChecked (m : MapState) : Option MapState :=
  (intRange m.height).foldl
    (fun acc row => acc.bind (fun mm =>
      (mm.MakeNormalWallChecked (Position.mk 0 row WALL_FACING_EAST) WALL_TYPE_STONE).bind
        (fun mm2 => mm2.MakeNormalWallChecked
          (Position.mk (mm.width - 1) row WALL_FACING_WEST) WALL_TYPE_STONE)))
    (some m)

/-- Guarded-indexing image of the second Map::MakeFirstMockup loop, whose
second call passes WALL_FACING_NORTH = 4 as the facing. -/
def mockupBorderNorthSouthChecked (m : MapState) : Option MapState :=
  (intRange m.width).foldl
    (fun acc column => acc.bind (fun mm =>
      (mm.MakeNormalWallChecked (Position.mk column 0 WALL_FACING_SOUTH) WALL_TYPE_STONE).bind
        (fun mm2 => mm2.MakeNormalWallChecked
          (Position.mk column (mm.height - 1) WALL_FACING_NORTH) WALL_TYPE_STONE)))
    (some m)

/-- Guarded-indexing image of the third Map::MakeFirstMockup loop. -/
def mockupCorridorColumnsChecked (m : MapState) : Option MapState :=
  (intRangeFrom 2 (m.width - 2)).foldl
    (fun acc column => acc.bind (fun mm =>
      (mm.MakeNormalWallChecked (Position.mk column 1 WALL_FACING_SOUTH) WALL_TYPE_STONE).bind
        (fun mm2 => mm2.MakeNormalWallChecked
          (Position.mk column (mm.height - 2) WALL_FACING_SOUTH) WALL_TYPE_STONE)))
    (some m)

/-- Guarded-indexing image of the fourth Map::MakeFirstMockup loop. -/
def mockupCorridorRowsChecked (m : MapState) : Option MapState :=
  (intRangeFrom 2 (m.height - 1)).foldl
    (fun acc row => acc.bind (fun mm =>
      (mm.MakeNormalWallChecked (Position.mk 1 row WALL_FACING_EAST) WALL_TYPE_STONE).bind
        (fun mm2 => mm2.MakeNormalWallChecked
          (Position.mk (mm.width - 2) row WALL_FACING_WEST) WALL_TYPE_STONE)))
    (some m)

/-- Guarded-indexing image of Map::MakeFirstMockup: the same construction
sequence with every face-table write bounds-checked. -/
def MapState.MakeFirstMockupChecked (m : MapState) : Option MapState :=
  let m0 : MapState := { m with width := 10, height := 10 }
  let m1 := m0.ClearMap
  let m2 : MapState :=
    { m1 with startingPoints := [Position.mk 1 1 PLAYER_FACING_EAST] }
  (mockupBorderEastWestChecked m2).bind (fun m3 =>
    (mockupBorderNorthSouthChecked m3).bind (fun m4 =>
      (mockupCorridorColumnsChecked m4).bind (fun m5 =>
        (mockupCorridorRowsChecked m5).bind (fun m6 =>
          m6.RemoveWallChecked
            (Position.mk 2 (m6.height.tdiv 2) WALL_FACING_WEST)))))

/-- Guarded-indexing image of Map::MakeMockup. -/
def MapState.MakeMockupChecked (m : MapState) : Option MapState :=
  m.MakeFirstMockupChecked

theorem intRangeFrom_eq_cons {lo bound : Int} (h : lo < bound) :
    intRangeFrom lo bound = lo :: intRangeFrom (lo + 1) bound := by
  unfold intRangeFrom
  have hn : (bound - lo).toNat = (bound - (lo + 1)).toNat + 1 := by omega
  rw [hn, List.range_succ_eq_map, List.map_cons, List.map_map]
  congr 1
  · simp
  · apply List.map_congr_left
    intro a _
    simp only [Function.comp_apply, Int.ofNat_eq_coe]
    push_cast
    ring

theorem intRange_eq_cons {bound : Int} (h : 0 < bound) :
    intRange bound = 0 :: intRangeFrom 1 bound := by
  rw [intRange, intRangeFrom_eq_cons h]
  norm_num

/-- Folding an Option-bind step from a none accumulator stays none. -/
theorem foldl_bind_none {β : Type} (g : β → MapState → Option MapState)
    (l : List β) :
    l.foldl (fun acc b => acc.bind (g b)) none = none := by
  induction l with
  | nil => rfl
  | cons a t ih => simpa using ih

theorem mockupBorderEastWestChecked_some (m : MapState) :
    ∃ s, mockupBorderEastWestChecked m = some s ∧ s.width = m.width := by
  unfold mockupBorderEastWestChecked
  refine foldl_preserves (fun acc : Option MapState => ∃ s, acc = some s ∧ s.width = m.width) _
    ?_ _ _ ⟨m, rfl, rfl⟩
  rintro acc b ⟨s, rfl, hw⟩
  refine ⟨(s.MakeNormalWall (Position.mk 0 b WALL_FACING_EAST) WALL_TYPE_STONE).MakeNormalWall
    (Position.mk (s.width - 1) b WALL_FACING_WEST) WALL_TYPE_STONE, ?_, ?_⟩
  · simp [MapState.MakeNormalWallChecked, WALL_FACING_EAST, WALL_FACING_WEST]
  · rw [makeNormalWall_width, makeNormalWall_width]
    exact hw

theorem mockupBorderNorthSouthChecked_none (m : MapState) (h : 0 < m.width) :
    mockupBorderNorthSouthChecked m = none := by
  unfold mockupBorderNorthSouthChecked
  rw [intRange_eq_cons h, List.foldl_cons]
  have hstep : (some m).bind (fun mm =>
      (mm.MakeNormalWallChecked (Position.mk 0 0 WALL_FACING_SOUTH) WALL_TYPE_STONE).bind
        (fun mm2 => mm2.MakeNormalWallChecked
          (Position.mk 0 (mm.height - 1) WALL_FACING_NORTH) WALL_TYPE_STONE)) = none := by
    simp [MapState.MakeNormalWallChecked, WALL_FACING_SOUTH, WALL_FACING_NORTH]
  rw [hstep]
  exact foldl_bind_none _ _

/-- The checked mockup bind chain fails on any base map of positive width:
the east-west border loop succeeds, and then the first
WALL_FACING_NORTH call of the north-south border loop hits the guarded
error branch. -/
theorem mockupChain_none (m2 : MapState) (h : 0 < m2.width) :
    (mockupBorderEastWestChecked m2).bind (fun m3 =>
      (mockupBorderNorthSouthChecked m3).bind (fun m4 =>
        (mockupCorridorColumnsChecked m4).bind (fun m5 =>
          (mockupCorridorRowsChecked m5).bind (fun m6 =>
            m6.RemoveWallChecked
              (Position.mk 2 (m6.height.tdiv 2) WALL_FACING_WEST))))) = none := by
  obtain ⟨s, hs, hw⟩ := mockupBorderEastWestChecked_some m2
  rw [hs, Option.some_bind,
    mockupBorderNorthSouthChecked_none s (by rw [hw]; exact h)]
  rfl

/-- Claim C10: for every position with facing in {0,1,2,3} the face-table
access of MakeNormalWall is in bounds (the guarded variant succeeds and
agrees with the unguarded one), WALL_FACING_NORTH is the out-of-range
index 4, every MakeNormalWall call with a WALL_FACING_NORTH-facing
position hits the guarded error branch, and that error branch is reached
from MakeMockup: the guarded image of the standard mockup construction
fails. -/
theorem makeNormalWall_facing_bound :
    (∀ (m : MapState) (p : Position) (wallID : Int),
      0 ≤ p.facing → p.facing < 4 →
      m.MakeNormalWallChecked p wallID = some (m.MakeNormalWall p wallID)) ∧
    WALL_FACING_NORTH = 4 ∧
    (∀ (m : MapState) (column row wallID : Int),
      m.MakeNormalWallChecked (Position.mk column row WALL_FACING_NORTH) wallID
        = none) ∧
    MapState.init.MakeMockupChecked = none := by
  refine ⟨?_, rfl, ?_, ?_⟩
  · intro m p wallID hf0 hf4
    rw [MapState.MakeNormalWallChecked, if_pos ⟨hf0, hf4⟩]
  · intro m column row wallID
    simp [MapState.MakeNormalWallChecked, WALL_FACING_NORTH]
  · rw [MapState.MakeMockupChecked]
    simp only [MapState.MakeFirstMockupChecked]
    refine mockupChain_none _ ?_
    simp [clearMap_width]

/-- Witness for claim C10: on a concrete 3x3 map, a wall write with the
in-range facing 2 passes the guarded-indexing check and agrees with the
unguarded MakeNormalWall. -/
theorem makeNormalWall_facing_bound_witness :
    (MapState.mk 3 3 (fun _ _ _ => 0) (fun _ _ _ => true) []).MakeNormalWallChecked
      (Position.mk 1 1 2) 2 =
      some ((MapState.mk 3 3 (fun _ _ _ => 0) (fun _ _ _ => true) []).MakeNormalWall
        (Position.mk 1 1 2) 2) :=
  makeNormalWall_facing_bound.1
    (MapState.mk 3 3 (fun _ _ _ => 0) (fun _ _ _ => true) [])
    (Position.mk 1 1 2) 2 (by decide) (by decide)

/-! ## WallSpriteSet (WallSpriteSet.h / WallSpriteSet.cpp) and claim C7 -/

/-- SDL_Surface pointer: none models a null handle, some n an opaque
loaded image. -/
abbrev SDLSurfacePtr := Option Nat

/-- State of WallSpriteSet.h: visibleDepth_ and the three image arrays
(lists standing for the heap arrays of visibleDepth_ pointers). -/
structure WallSpriteSet where
  visibleDepth : Int
  frontImages : List SDLSurfacePtr
  leftImages : List SDLSurfacePtr
  rightImages : List SDLSurfacePtr

/-- WallSpriteSet::WallSpriteSet - visibleDepth_ = 3 and, for index 0..2,
loads rootPath f{index}.png, l{index}.png and r{index}.png through the
engine image loader (modelled as the function argument; a failed load is a
null pointer). -/
def WallSpriteSet.construct (loadImageResource : String → SDLSurfacePtr)
    (rootPath : String) : WallSpriteSet :=
  { visibleDepth := 3,
    frontImages := (List.range 3).map
      (fun index => loadImageResource (rootPath ++ "f" ++ toString index ++ ".png")),
    leftImages := (List.range 3).map
      (fun index => loadImageResource (rootPath ++ "l" ++ toString index ++ ".png")),
    rightImages := (List.range 3).map
      (fun index => loadImageResource (rootPath ++ "r" ++ toString index ++ ".png")) }

/-- WallSpriteSet::GetFrontImage - null when range > visibleDepth_, else
frontImages_[range].  The guarded indexing of the shallow embedding
returns some pointer for an in-bounds array read and none for the
out-of-bounds reads the C++ leaves undefined (range = visibleDepth_ or
negative range). -/
def WallSpriteSet.GetFrontImage (s : WallSpriteSet) (range : Int) :
    Option SDLSurfacePtr :=
  if range > s.visibleDepth then some none
  else if h : 0 ≤ range ∧ range.toNat < s.frontImages.length then
    some (s.frontImages.get ⟨range.toNat, h.2⟩)
  else none

/-- WallSpriteSet::GetLeftImage - same bound as GetFrontImage over
leftImages_. -/
def WallSpriteSet.GetLeftImage (s : WallSpriteSet) (range : Int) :
    Option SDLSurfacePtr :=
  if range > s.visibleDepth then some none
  else if h : 0 ≤ range ∧ range.toNat < s.leftImages.length then
    some (s.leftImages.get ⟨range.toNat, h.2⟩)
  else none

/-- WallSpriteSet::GetRightImage - same bound as GetFrontImage over
rightImages_. -/
def WallSpriteSet.GetRightImage (s : WallSpriteSet) (range : Int) :
    Option SDLSurfacePtr :=
  if range > s.visibleDepth then some none
  else if h : 0 ≤ range ∧ range.toNat < s.rightImages.length then
    some (s.rightImages.get ⟨range.toNat, h.2⟩)
  else none

/-- Claim C7: every constructed WallSpriteSet has visibleDepth 3 and
3-element image arrays; the three accessors return null exactly when
range > visibleDepth; for 0 <= range < visibleDepth they return the array
element at index range and the guarded-indexing error branch is
unreachable; and range = visibleDepth passes the > check yet addresses one
past the end of the 3-element array (the guarded read errors). -/
theorem wallSpriteSet_depth_bound (loadImageResource : String → SDLSurfacePtr)
    (rootPath : String) (range : Int) :
    ((WallSpriteSet.construct loadImageResource rootPath).visibleDepth = 3 ∧
     (WallSpriteSet.construct loadImageResource rootPath).frontImages.length = 3 ∧
     (WallSpriteSet.construct loadImageResource rootPath).leftImages.length = 3 ∧
     (WallSpriteSet.construct loadImageResource rootPath).rightImages.length = 3) ∧
    (range > 3 →
      (WallSpriteSet.construct loadImageResource rootPath).GetFrontImage range = some none ∧
      (WallSpriteSet.construct loadImageResource rootPath).GetLeftImage range = some none ∧
      (WallSpriteSet.construct loadImageResource rootPath).GetRightImage range = some none) ∧
    (0 ≤ range → range < 3 →
      (WallSpriteSet.construct loadImageResource rootPath).GetFrontImage range =
        some ((WallSpriteSet.construct loadImageResource rootPath).frontImages.getD
          range.toNat none) ∧
      (WallSpriteSet.construct loadImageResource rootPath).GetFrontImage range ≠ none ∧
      (WallSpriteSet.construct loadImageResource rootPath).GetLeftImage range =
        some ((WallSpriteSet.construct loadImageResource rootPath).leftImages.getD
          range.toNat none) ∧
      (WallSpriteSet.construct loadImageResource rootPath).GetLeftImage range ≠ none ∧
      (WallSpriteSet.construct loadImageResource rootPath).GetRightImage range =
        some ((WallSpriteSet.construct loadImageResource rootPath).rightImages.getD
          range.toNat none) ∧
      (WallSpriteSet.construct loadImageResource rootPath).GetRightImage range ≠ none) ∧
    ((WallSpriteSet.construct loadImageResource rootPath).GetFrontImage 3 = none ∧
     (WallSpriteSet.construct loadImageResource rootPath).GetLeftImage 3 = none ∧
     (WallSpriteSet.construct loadImageResource rootPath).GetRightImage 3 = none) := by
  have hlen : (WallSpriteSet.construct loadImageResource rootPath).frontImages.length = 3 ∧
      (WallSpriteSet.construct loadImageResource rootPath).leftImages.length = 3 ∧
      (WallSpriteSet.construct loadImageResource rootPath).rightImages.length = 3 := by
    simp [WallSpriteSet.construct]
  have hdepth : (WallSpriteSet.construct loadImageResource rootPath).visibleDepth = 3 := rfl
  refine ⟨⟨hdepth, hlen.1, hlen.2.1, hlen.2.2⟩, ?_, ?_, ?_⟩
  · intro hgt
    refine ⟨?_, ?_, ?_⟩ <;>
      simp only [WallSpriteSet.GetFrontImage, WallSpriteSet.GetLeftImage,
        WallSpriteSet.GetRightImage, hdepth] <;>
      rw [if_pos hgt]
  · intro h0 h3
    have hlt : range.toNat < 3 := by omega
    have hngt : ¬ (range > 3) := by omega
    refine ⟨?_, ?_, ?_, ?_, ?_, ?_⟩ <;>
      simp only [WallSpriteSet.GetFrontImage, WallSpriteSet.GetLeftImage,
        WallSpriteSet.GetRightImage, hdepth, hlen.1, hlen.2.1, hlen.2.2] <;>
      rw [if_neg hngt] <;>
      rw [dif_pos (⟨h0, hlt⟩ : 0 ≤ range ∧ range.toNat < 3)] <;>
      simp [List.getD_eq_getElem?_getD, List.get?_eq_get, hlt, hlen.1, hlen.2.1,
        hlen.2.2]
  · refine ⟨?_, ?_, ?_⟩ <;>
      simp only [WallSpriteSet.GetFrontImage, WallSpriteSet.GetLeftImage,
        WallSpriteSet.GetRightImage, hdepth, hlen.1, hlen.2.1, hlen.2.2] <;>
      norm_num

/-- Witness for claim C7 with the constant loader and range 4 (beyond the
visible depth): the front accessor returns the null pointer. -/
theorem wallSpriteSet_depth_bound_witness :
    (WallSpriteSet.construct (fun _ => some 0) "x").GetFrontImage 4 = some none :=
  ((wallSpriteSet_depth_bound (fun _ => some 0) "x" 4).2.1 (by decide)).1

/-! ## MiniMap (MiniMap.cpp) and claim C8 -/

/-- The three cell fill colors of MiniMap::RecreateMiniMapSurface:
playerCellColor (255,255,0), visitedCellColor (0,128,0) and
notVisitedCellColor (32,32,32). -/
inductive MiniMapCellColor where
  | playerCell
  | visitedCell
  | notVisitedCell
deriving DecidableEq, Repr

/-- Cell coloring of MiniMap::RecreateMiniMapSurface, exactly as nested in
the source: the IsVisited branch is taken first, and only inside it the
player cell test (row == playerZ and column == playerX) selects the player
color over the visited color; a cell that is not visited is always filled
with the not-visited color. -/
def miniMapCellColor (currentMap : MapState) (playerX playerZ : Int)
    (column row : Int) : MiniMapCellColor :=
  if currentMap.IsVisited column row then
    if row = playerZ ∧ column = playerX then MiniMapCellColor.playerCell
    else MiniMapCellColor.visitedCell
  else MiniMapCellColor.notVisitedCell

/-- Cell fills of one MiniMap::Update / RecreateMiniMapSurface pass: one
entry (column, row, color) per cell, rows outside columns inside, in loop
order. -/
def miniMapUpdateCells (currentMap : MapState) (playerX playerZ : Int) :
    List (Int × Int × MiniMapCellColor) :=
  (intRange currentMap.height).foldl
    (fun cells row =>
      (intRange currentMap.width).foldl
        (fun cells2 column =>
          cells2 ++ [(column, row, miniMapCellColor currentMap playerX playerZ column row)])
        cells)
    []

/-- Modelled from the spec: the cell coloring rule as claim C8 states it,
with the player test taking priority over the visited test. -/
def specClaimedMiniMapCellColor (currentMap : MapState) (playerX playerZ : Int)
    (column row : Int) : MiniMapCellColor :=
  if row = playerZ ∧ column = playerX then MiniMapCellColor.playerCell
  else if currentMap.IsVisited column row then MiniMapCellColor.visitedCell
  else MiniMapCellColor.notVisitedCell

/-- Counterexample to claim C8: on a concrete map with the player at
(1, 1), the cell (1, 1) is the player's own cell, so the claimed rule
colors it with the player color, but the code colors it not-visited
because the player test is nested inside the always-false IsVisited
branch. -/
theorem miniMap_player_color_counterexample :
    miniMapCellColor (MapState.mk 3 3 (fun _ _ _ => 0) (fun _ _ _ => true) []) 1 1 1 1 =
      MiniMapCellColor.notVisitedCell ∧
    specClaimedMiniMapCellColor (MapState.mk 3 3 (fun _ _ _ => 0) (fun _ _ _ => true) []) 1 1 1 1 =
      MiniMapCellColor.playerCell ∧
    miniMapCellColor (MapState.mk 3 3 (fun _ _ _ => 0) (fun _ _ _ => true) []) 1 1 1 1 ≠
      specClaimedMiniMapCellColor (MapState.mk 3 3 (fun _ _ _ => 0) (fun _ _ _ => true) []) 1 1 1 1 := by
  refine ⟨rfl, rfl, ?_⟩
  intro h
  exact MiniMapCellColor.noConfusion h

/-- Claim C8 as amended: on every mini-map Update each cell is colored by
the nested rule: when IsVisited holds, the player color on the player's
cell and the visited color elsewhere, and the not-visited color when
IsVisited fails; since IsVisited returns false for every argument, every
cell - including the player's own cell - renders as unvisited. -/
theorem miniMap_always_unvisited (currentMap : MapState) (playerX playerZ : Int)
    (column row : Int) :
    currentMap.IsVisited column row = false ∧
    miniMapCellColor currentMap playerX playerZ column row =
      MiniMapCellColor.notVisitedCell ∧
    (∀ entry ∈ miniMapUpdateCells currentMap playerX playerZ,
      entry.2.2 = MiniMapCellColor.notVisitedCell) := by
  refine ⟨rfl, rfl, ?_⟩
  intro entry hentry
  have hgen : ∀ (l : List Int) (cells : List (Int × Int × MiniMapCellColor)) (row2 : Int),
      (∀ e ∈ cells, e.2.2 = MiniMapCellColor.notVisitedCell) →
      ∀ e ∈ (l.foldl
        (fun cells2 column =>
          cells2 ++ [(column, row2, miniMapCellColor currentMap playerX playerZ column row2)])
        cells),
        e.2.2 = MiniMapCellColor.notVisitedCell := by
    intro l
    induction l with
    | nil => intro cells row2 hc e he; exact hc e he
    | cons a t ih =>
      intro cells row2 hc e he
      refine ih _ row2 ?_ e he
      intro e2 he2
      rcases List.mem_append.mp he2 with h1 | h2
      · exact hc e2 h1
      · rcases List.mem_singleton.mp h2 with rfl
        rfl
  have houter : ∀ (rl : List Int) (cells : List (Int × Int × MiniMapCellColor)),
      (∀ e ∈ cells, e.2.2 = MiniMapCellColor.notVisitedCell) →
      ∀ e ∈ (rl.foldl
        (fun cells row2 =>
          (intRange currentMap.width).foldl
            (fun cells2 column =>
              cells2 ++ [(column, row2, miniMapCellColor currentMap playerX playerZ column row2)])
            cells)
        cells),
        e.2.2 = MiniMapCellColor.notVisitedCell := by
    intro rl
    induction rl with
    | nil => intro cells hc e he; exact hc e he
    | cons a t ih =>
      intro cells hc e he
      exact ih _ (fun e2 he2 => hgen (intRange currentMap.width) cells a hc e2 he2) e he
  rw [miniMapUpdateCells] at hentry
  exact houter (intRange currentMap.height) []
    (fun e he => absurd he (List.not_mem_nil e)) entry hentry

/-- Witness for the amended claim C8 on a concrete 1x1 map: the single
update entry of the mini-map pass carries the not-visited color. -/
theorem miniMap_always_unvisited_witness :
    ((0 : Int), (0 : Int), MiniMapCellColor.notVisitedCell).2.2 =
      MiniMapCellColor.notVisitedCell :=
  (miniMap_always_unvisited
      (MapState.mk 1 1 (fun _ _ _ => 0) (fun _ _ _ => true) []) 0 0 0 0).2.2
    ((0 : Int), (0 : Int), MiniMapCellColor.notVisitedCell) (by decide)

/-! ## ArtManager (ArtManager.cpp) and MapView (MapView.cpp), claim C4 -/

/-- State of ArtManager.h: the owned wall sprite sets, in load order. -/
structure ArtManager where
  allWallSprites : List WallSpriteSet

/-- ArtManager::GetWallSetNumber - 1-based lookup: the set at index
which - 1 when 0 < which <= size, else null.  The C++ parameter is
unsigned; a negative int argument converts to a value far above the
4-element vector size, so the guard fails for it exactly as the Int guard
here does. -/
def ArtManager.GetWallSetNumber (art : ArtManager) (which : Int) :
    Option WallSpriteSet :=
  if h : 0 < which ∧ which.toNat ≤ art.allWallSprites.length then
    some (art.allWallSprites.get ⟨which.toNat - 1, by omega⟩)
  else none

/-- ArtManager::GetXOffsetCenter.  The C++ offset functions return float,
but every reachable value is a small integer times 4.0f, exactly
representable, and the call sites cast straight back to int; they are
modelled as Int. -/
def ArtManager.GetXOffsetCenter (range offset : Int) : Int :=
  (if range = 0 then 6 + offset * 63
   else if range = 1 then 17 + offset * 41
   else if range = 2 then 23 + offset * 29
   else 0) * 4

/-- ArtManager::GetXOffsetLeft. -/
def ArtManager.GetXOffsetLeft (range _offset : Int) : Int :=
  (if range = 0 then 0 else if range = 1 then 6 else if range = 2 then 17 else 0) * 4

/-- ArtManager::GetXOffsetRight. -/
def ArtManager.GetXOffsetRight (range _offset : Int) : Int :=
  (if range = 0 then 69 else if range = 1 then 58 else if range = 2 then 52 else 0) * 4

/-- ArtManager::GetYOffsetCenter. -/
def ArtManager.GetYOffsetCenter (range _offset : Int) : Int :=
  (if range = 0 then 8 else if range = 1 then 23 else if range = 2 then 32 else 0) * 4

/-- ArtManager::GetYOffsetLeft. -/
def ArtManager.GetYOffsetLeft (range _offset : Int) : Int :=
  (if range = 0 then 0 else if range = 1 then 8 else if range = 2 then 23 else 0) * 4

/-- ArtManager::GetYOffsetRight. -/
def ArtManager.GetYOffsetRight (range _offset : Int) : Int :=
  (if range = 0 then 0 else if range = 1 then 8 else if range = 2 then 23 else 0) * 4

/-- Drawing commands a MapView::RenderMap call issues against the target
surface: the sky fill, the ground fill, and one Engine::BlitSprite per
drawn wall sprite. -/
inductive RenderCmd where
  | fillSky
  | fillGround
  | blit (image : Nat) (destX destY : Int)
deriving DecidableEq, Repr

/-- MapView::DrawStraightWall - looks up the wall id at the position, the
sprite set for that id, and the front image for the range; any miss (no
wall, null set, null image, or the undefined out-of-bounds read) draws
nothing, otherwise blits at the center offsets. -/
def DrawStraightWall (art : ArtManager) (currentMap : MapState)
    (currentPosition : Position) (range offset : Int) : List RenderCmd :=
  match art.GetWallSetNumber (currentMap.GetWallForCoordinate currentPosition) with
  | none => []
  | some nextSet =>
    match nextSet.GetFrontImage range with
    | some (some nextImage) =>
      [RenderCmd.blit nextImage (ArtManager.GetXOffsetCenter range offset)
        (ArtManager.GetYOffsetCenter range offset)]
    | _ => []

/-- MapView::DrawLeftWall - wall id at the left-rotated facing, left image
family, left offsets. -/
def DrawLeftWall (art : ArtManager) (currentMap : MapState)
    (currentPosition : Position) (range offset : Int) : List RenderCmd :=
  match art.GetWallSetNumber
      (currentMap.GetWallForCoordinate currentPosition.GetLeftFacingOfThis) with
  | none => []
  | some nextSet =>
    match nextSet.GetLeftImage range with
    | some (some nextImage) =>
      [RenderCmd.blit nextImage (ArtManager.GetXOffsetLeft range offset)
        (ArtManager.GetYOffsetLeft range offset)]
    | _ => []

/-- MapView::DrawRightWall - wall id at the right-rotated facing, right
image family, right offsets. -/
def DrawRightWall (art : ArtManager) (currentMap : MapState)
    (currentPosition : Position) (range offset : Int) : List RenderCmd :=
  match art.GetWallSetNumber
      (currentMap.GetWallForCoordinate currentPosition.GetRightFacingOfThis) with
  | none => []
  | some nextSet =>
    match nextSet.GetRightImage range with
    | some (some nextImage) =>
      [RenderCmd.blit nextImage (ArtManager.GetXOffsetRight range offset)
        (ArtManager.GetYOffsetRight range offset)]
    | _ => []

/-- MapView::DrawDistRank - straight walls at the lateral cells from
-offset to -1 (left loop) and from offset down to 1 (right loop), then at
the center the left wall, the right wall and the straight wall of the base
point range steps ahead. -/
def DrawDistRank (art : ArtManager) (currentMap : MapState)
    (currentPosition : Position) (range offset : Int) : List RenderCmd :=
  let basePoint := currentPosition.GetPositionAheadOfThis range
  ((intRangeFrom (-offset) 0).foldl
    (fun cmds index =>
      cmds ++ DrawStraightWall art currentMap
        (basePoint.GetPositionLeftOfThis (-1 * index)) range index) []) ++
  (((intRangeFrom 1 (offset + 1)).reverse).foldl
    (fun cmds index =>
      cmds ++ DrawStraightWall art currentMap
        (basePoint.GetPositionRightOfThis index) range index) []) ++
  DrawLeftWall art currentMap basePoint range 0 ++
  DrawRightWall art currentMap basePoint range 0 ++
  DrawStraightWall art currentMap basePoint range 0

/-- MapView::DrawSky - one solid fill of the upper part of the view. -/
def DrawSky : List RenderCmd := [RenderCmd.fillSky]

/-- MapView::DrawGround - one solid fill of the lower part of the view. -/
def DrawGround : List RenderCmd := [RenderCmd.fillGround]

/-- MapView::RenderMap - sky, ground, then distance ranks 2, 1, 0 (far to
near), each with lateral spread offset 1. -/
def RenderMap (art : ArtManager) (currentMap : MapState)
    (currentPosition : Position) : List RenderCmd :=
  DrawSky ++ DrawGround ++
  DrawDistRank art currentMap currentPosition 2 1 ++
  DrawDistRank art currentMap currentPosition 1 1 ++
  DrawDistRank art currentMap currentPosition 0 1

/-- Positions whose wall id one DrawDistRank call reads, in draw order. -/
def DrawDistRankQueried (currentPosition : Position) (range offset : Int) :
    List Position :=
  let basePoint := currentPosition.GetPositionAheadOfThis range
  ((intRangeFrom (-offset) 0).map
    (fun index => basePoint.GetPositionLeftOfThis (-1 * index))) ++
  (((intRangeFrom 1 (offset + 1)).reverse).map
    (fun index => basePoint.GetPositionRightOfThis index)) ++
  [basePoint.GetLeftFacingOfThis, basePoint.GetRightFacingOfThis, basePoint]

/-- Positions whose wall id one RenderMap call reads. -/
def RenderMapQueried (currentPosition : Position) : List Position :=
  DrawDistRankQueried currentPosition 2 1 ++
  DrawDistRankQueried currentPosition 1 1 ++
  DrawDistRankQueried currentPosition 0 1

theorem getWallSetNumber_zero (art : ArtManager) :
    art.GetWallSetNumber 0 = none := by
  simp [ArtManager.GetWallSetNumber]

theorem drawStraightWall_no_wall (art : ArtManager) (m : MapState) (p : Position)
    (range offset : Int) (h : m.GetWallForCoordinate p = 0) :
    DrawStraightWall art m p range offset = [] := by
  rw [DrawStraightWall, h, getWallSetNumber_zero]

theorem drawLeftWall_no_wall (art : ArtManager) (m : MapState) (p : Position)
    (range offset : Int) (h : m.GetWallForCoordinate p.GetLeftFacingOfThis = 0) :
    DrawLeftWall art m p range offset = [] := by
  rw [DrawLeftWall, h, getWallSetNumber_zero]

theorem drawRightWall_no_wall (art : ArtManager) (m : MapState) (p : Position)
    (range offset : Int) (h : m.GetWallForCoordinate p.GetRightFacingOfThis = 0) :
    DrawRightWall art m p range offset = [] := by
  rw [DrawRightWall, h, getWallSetNumber_zero]

theorem drawStraightWall_length (art : ArtManager) (m : MapState) (p : Position)
    (range offset : Int) : (DrawStraightWall art m p range offset).length ≤ 1 := by
  rw [DrawStraightWall]
  rcases art.GetWallSetNumber (m.GetWallForCoordinate p) with _ | s
  · simp
  · rcases himg : s.GetFrontImage range with _ | ptr
    · simp [himg]
    · rcases ptr with _ | img <;> simp [himg]

theorem drawLeftWall_length (art : ArtManager) (m : MapState) (p : Position)
    (range offset : Int) : (DrawLeftWall art m p range offset).length ≤ 1 := by
  rw [DrawLeftWall]
  rcases art.GetWallSetNumber (m.GetWallForCoordinate p.GetLeftFacingOfThis) with _ | s
  · simp
  · rcases himg : s.GetLeftImage range with _ | ptr
    · simp [himg]
    · rcases ptr with _ | img <;> simp [himg]

theorem drawRightWall_length (art : ArtManager) (m : MapState) (p : Position)
    (range offset : Int) : (DrawRightWall art m p range offset).length ≤ 1 := by
  rw [DrawRightWall]
  rcases art.GetWallSetNumber (m.GetWallForCoordinate p.GetRightFacingOfThis) with _ | s
  · simp
  · rcases himg : s.GetRightImage range with _ | ptr
    · simp [himg]
    · rcases ptr with _ | img <;> simp [himg]

/-- Claim C4: when every cell queried at the three depth ranks ahead of
the player reads wall id 0, RenderMap issues exactly the sky fill and the
ground fill and no sprite blit; for every input whatsoever the two
backdrop fills open the frame, and each wall-draw step issues at most one
blit (a lookup miss skips only that single blit and never aborts the
frame). -/
theorem renderMap_wallFree_backdrop (art : ArtManager) (m : MapState)
    (p : Position)
    (h : ∀ q ∈ RenderMapQueried p, m.GetWallForCoordinate q = 0) :
    RenderMap art m p = [RenderCmd.fillSky, RenderCmd.fillGround] ∧
    (∀ (art2 : ArtManager) (m2 : MapState) (p2 : Position),
      List.take 2 (RenderMap art2 m2 p2) = [RenderCmd.fillSky, RenderCmd.fillGround]) ∧
    (∀ (art2 : ArtManager) (m2 : MapState) (p2 : Position) (range offset : Int),
      (DrawStraightWall art2 m2 p2 range offset).length ≤ 1 ∧
      (DrawLeftWall art2 m2 p2 range offset).length ≤ 1 ∧
      (DrawRightWall art2 m2 p2 range offset).length ≤ 1) := by
  have hlist : intRangeFrom (-1 : Int) 0 = [-1] := by decide
  have hlist2 : (intRangeFrom (1 : Int) (1 + 1)).reverse = [1] := by decide
  have hmem : ∀ q ∈ RenderMapQueried p, q ∈ RenderMapQueried p := fun q hq => hq
  have hrank : ∀ range : Int,
      DrawDistRankQueried p range 1 ⊆ RenderMapQueried p →
      DrawDistRank art m p range 1 = [] := by
    intro range hsub
    have hq : ∀ q ∈ DrawDistRankQueried p range 1, m.GetWallForCoordinate q = 0 :=
      fun q hq => h q (hsub hq)
    simp only [DrawDistRankQueried, hlist, hlist2, List.map_cons, List.map_nil,
      List.cons_append, List.nil_append, List.mem_cons, List.mem_append,
      List.mem_singleton, List.not_mem_nil] at hq
    simp only [DrawDistRank, hlist, hlist2, List.foldl_cons, List.foldl_nil,
      List.nil_append]
    rw [drawStraightWall_no_wall _ _ _ _ _ (hq _ (by simp)),
      drawStraightWall_no_wall _ _ _ _ _ (hq _ (by simp)),
      drawLeftWall_no_wall _ _ _ _ _ (hq _ (by simp)),
      drawRightWall_no_wall _ _ _ _ _ (hq _ (by simp)),
      drawStraightWall_no_wall _ _ _ _ _ (hq _ (by simp))]
    rfl
  refine ⟨?_, ?_, ?_⟩
  · have h2 : DrawDistRank art m p 2 1 = [] := hrank 2 (by
      intro q hq
      simp only [RenderMapQueried, List.mem_append]
      exact Or.inl (Or.inl hq))
    have h1 : DrawDistRank art m p 1 1 = [] := hrank 1 (by
      intro q hq
      simp only [RenderMapQueried, List.mem_append]
      exact Or.inl (Or.inr hq))
    have h0 : DrawDistRank art m p 0 1 = [] := hrank 0 (by
      intro q hq
      simp only [RenderMapQueried, List.mem_append]
      exact Or.inr hq)
    rw [RenderMap, h2, h1, h0]
    rfl
  · intro art2 m2 p2
    rw [RenderMap]
    rfl
  · intro art2 m2 p2 range offset
    exact ⟨drawStraightWall_length art2 m2 p2 range offset,
      drawLeftWall_length art2 m2 p2 range offset,
      drawRightWall_length art2 m2 p2 range offset⟩

/-- Witness for claim C4 with an empty art catalog, the freshly
constructed empty map (width 0, every wall query misses) and the origin
position: the frame is exactly the two backdrop fills. -/
theorem renderMap_wallFree_backdrop_witness :
    RenderMap (ArtManager.mk []) MapState.init (Position.mk 0 0 0) =
      [RenderCmd.fillSky, RenderCmd.fillGround] :=
  (renderMap_wallFree_backdrop (ArtManager.mk []) MapState.init (Position.mk 0 0 0)
    (by decide)).1

end LOFI
